import Mathlib

/-!
Verification of the `hand` console-output formatting library.

The repository is a Rust library of text-formatting entry points.  The
current revision (`src/io.rs`) defines a catalogue of mark glyphs
(`marks::INFO`, …) and a family of renderers.  Each renderer exists in two
build-time variants selected by `cfg(test)`: a Captured variant that
returns the rendered string (`format!`), and a Live variant that writes the
same text to the diagnostic stream (`eprint!`).  Both variants use the very
same format template, so we transcribe each branch separately and prove
they agree.  The superseded revision (`src/print.rs`) is transcribed in its
own namespace.

Strings are embedded as Lean `String`; the diagnostic stream of the Live
variants is modelled as the list of writes performed on it, in order.
-/

namespace Hand

namespace marks

/-- Transcribes `pub const INFO: &str`, the characters U+2139 U+FE0F. -/
def INFO : String := "ℹ️"

/-- Transcribes `pub const WARN: &str`, the characters U+26A0 U+FE0F. -/
def WARN : String := "⚠️"

/-- Transcribes `pub const ERROR: &str`, the character U+274C. -/
def ERROR : String := "❌"

/-- Transcribes `pub const SUCCESS: &str`, the character U+2705. -/
def SUCCESS : String := "✅"

/-- Transcribes `pub const WAIT: &str`, the character U+231B. -/
def WAIT : String := "⌛"

/-- Transcribes `pub const INPUT: &str`, the characters U+2328 U+FE0F. -/
def INPUT : String := "⌨️"

end marks

/-- The text produced by the Captured (`cfg(test)`) variant of `custom`:
`format!` over the template consisting of a placeholder, a space, and a
placeholder, applied to the head and the formatted message. -/
def custom (head msg : String) : String :=
  head ++ " " ++ msg

/-- Transcribes `customln`: delegates to `custom` with the message template that appends
one newline to the formatted message. -/
def customln (head msg : String) : String :=
  custom head (msg ++ "\n")

/-- The text produced by the Captured (`cfg(test)`) variant of `scopecustom`:
`format!` over the template `ESC[2m[`, placeholder, `]ESC[0m `, placeholder,
space, placeholder. -/
def scopecustom (scope head msg : String) : String :=
  "\x1b[2m[" ++ scope ++ "]\x1b[0m " ++ head ++ " " ++ msg

/-- Transcribes `scopecustomln`: delegates to `scopecustom` with the message template that
appends one newline to the formatted message. -/
def scopecustomln (scope head msg : String) : String :=
  scopecustom scope head (msg ++ "\n")

/-- The six mark kinds of the registry in `marks`. -/
inductive MarkKind where
  | info
  | warn
  | error
  | success
  | wait
  | input
deriving DecidableEq

/-- The head each per-kind entry point passes to `custom`/`scopecustom`:
the corresponding constant of `marks`. -/
def markHead : MarkKind → String
  | .info => marks.INFO
  | .warn => marks.WARN
  | .error => marks.ERROR
  | .success => marks.SUCCESS
  | .wait => marks.WAIT
  | .input => marks.INPUT

/-- The per-kind unscoped entry points (`info!`, `warn!`, …): each expands to
`custom` with its registry head. -/
def mark (k : MarkKind) (msg : String) : String :=
  custom (markHead k) msg

/-- The per-kind unscoped newline entry points (`infoln!`, …): each expands to
`customln` with its registry head. -/
def markln (k : MarkKind) (msg : String) : String :=
  customln (markHead k) msg

/-- The per-kind scoped entry points (`scopeinfo!`, …): each expands to
`scopecustom` with its registry head. -/
def scopemark (k : MarkKind) (scope msg : String) : String :=
  scopecustom scope (markHead k) msg

/-- The per-kind scoped newline entry points (`scopeinfoln!`, …): each expands
to `scopecustomln` with its registry head. -/
def scopemarkln (k : MarkKind) (scope msg : String) : String :=
  scopecustomln scope (markHead k) msg

/-- One `eprint!` call on the diagnostic stream: the stream is the list of
writes performed so far, and the call appends its fully rendered text as a
single write. -/
def eprintWrite (stream : List String) (s : String) : List String :=
  stream ++ [s]

/-- The Live (`cfg(not(test))`) variant of `custom`: `eprint!` over the same
placeholder-space-placeholder template. -/
def customLive (stream : List String) (head msg : String) : List String :=
  eprintWrite stream (head ++ " " ++ msg)

/-- The Live variant of `customln`: delegates to the Live `custom` with the
newline-appending message template. -/
def customlnLive (stream : List String) (head msg : String) : List String :=
  customLive stream head (msg ++ "\n")

/-- The Live (`cfg(not(test))`) variant of `scopecustom`: `eprint!` over the
same scope-bracket template. -/
def scopecustomLive (stream : List String) (scope head msg : String) :
    List String :=
  eprintWrite stream ("\x1b[2m[" ++ scope ++ "]\x1b[0m " ++ head ++ " " ++ msg)

/-- The Live variant of `scopecustomln`: delegates to the Live `scopecustom`
with the newline-appending message template. -/
def scopecustomlnLive (stream : List String) (scope head msg : String) :
    List String :=
  scopecustomLive stream scope head (msg ++ "\n")

/-- The SGR dim style: ESC[2m before the text, ESC[0m after it. -/
def dim (s : String) : String :=
  "\x1b[2m" ++ s ++ "\x1b[0m"

/-- The full Captured rendering surface: the cross product of mark kind,
optional scope and newline choice, dispatching to the four entry-point
families. -/
def render (k : MarkKind) (scope : Option String) (newline : Bool)
    (msg : String) : String :=
  match scope with
  | none => if newline then markln k msg else mark k msg
  | some s => if newline then scopemarkln k s msg else scopemark k s msg

/-- The full Live rendering surface: the same dispatch over the Live
variants. -/
def renderLive (stream : List String) (k : MarkKind) (scope : Option String)
    (newline : Bool) (msg : String) : List String :=
  match scope with
  | none =>
      if newline then customlnLive stream (markHead k) msg
      else customLive stream (markHead k) msg
  | some s =>
      if newline then scopecustomlnLive stream s (markHead k) msg
      else scopecustomLive stream s (markHead k) msg

/-- One segment of a format template: a literal piece of text or one
placeholder. -/
inductive Seg where
  | lit (s : String)
  | hole
deriving DecidableEq

/-- Number of placeholders in a template. -/
def holeCount : List Seg → Nat
  | [] => 0
  | Seg.lit _ :: rest => holeCount rest
  | Seg.hole :: rest => 1 + holeCount rest

/-- Substitution of arguments into a template, placeholders consumed in
order. -/
def subst : List Seg → List String → String
  | [], _ => ""
  | Seg.lit s :: rest, args => s ++ subst rest args
  | Seg.hole :: rest, a :: args => a ++ subst rest args
  | Seg.hole :: rest, [] => subst rest []

/-- Modelled from the spec: the arity discipline of the formatting machinery
behind every entry point (Rust's `format_args!`, standard library code not
in this repository).  Per the spec, composition fails — is rejected rather
than rendered — exactly when the number of placeholders differs from the
number of supplied arguments; otherwise it renders the substitution. -/
def formatArgs (segs : List Seg) (args : List String) : Option String :=
  if holeCount segs = args.length then some (subst segs args) else none

end Hand

namespace PrintRev

/-- The superseded revision's `customln` (`src/print.rs`): `eprintln!` over the
placeholder-space-placeholder template, which writes the formatted text
followed by one newline. -/
def customln (head msg : String) : String :=
  head ++ " " ++ msg ++ "\n"

end PrintRev

theorem string_append_assoc (a b c : String) :
    a ++ b ++ c = a ++ (b ++ c) := by
  cases a with
  | mk la =>
    cases b with
    | mk lb =>
      cases c with
      | mk lc =>
        show String.mk (la ++ lb ++ lc) = String.mk (la ++ (lb ++ lc))
        rw [List.append_assoc]

theorem esc_open_split : ("\x1b[2m[" : String) = "\x1b[2m" ++ "[" := by
  decide

theorem esc_close_split :
    ("]\x1b[0m " : String) = "]" ++ ("\x1b[0m" ++ " ") := by
  decide

/-- C1 counterexample: the claim mandates ANSI-styled heads, but the current
revision's heads are the plain `marks` constants.  At message "x", `info!`
does not render ESC[1;94m ℹ ESC[0m and `wait!` does not render
ESC[1;35m ⌛ ESC[0m. -/
theorem c1_heads_carry_no_sgr :
    Hand.mark Hand.MarkKind.info "x" ≠ "\x1b[1;94mℹ\x1b[0m x" ∧
    Hand.mark Hand.MarkKind.wait "x" ≠ "\x1b[1;35m⌛\x1b[0m x" := by
  constructor <;> decide

/-- C1 (amended): every mark head is exactly its plain glyph — Info U+2139
U+FE0F, Warn U+26A0 U+FE0F, Error U+274C, Success U+2705, Wait U+231B,
Input U+2328 U+FE0F — and no head contains any ESC byte, so no head carries
ANSI styling. -/
theorem c1_heads_are_plain_glyphs :
    (Hand.markHead Hand.MarkKind.info).data =
        [Char.ofNat 0x2139, Char.ofNat 0xFE0F] ∧
    (Hand.markHead Hand.MarkKind.warn).data =
        [Char.ofNat 0x26A0, Char.ofNat 0xFE0F] ∧
    (Hand.markHead Hand.MarkKind.error).data = [Char.ofNat 0x274C] ∧
    (Hand.markHead Hand.MarkKind.success).data = [Char.ofNat 0x2705] ∧
    (Hand.markHead Hand.MarkKind.wait).data = [Char.ofNat 0x231B] ∧
    (Hand.markHead Hand.MarkKind.input).data =
        [Char.ofNat 0x2328, Char.ofNat 0xFE0F] ∧
    ∀ k : Hand.MarkKind, Char.ofNat 0x1B ∉ (Hand.markHead k).data :=
  ⟨by decide, by decide, by decide, by decide, by decide, by decide,
   fun k => by cases k <;> decide⟩

/-- C2: for every mark kind K and message M, the unscoped render equals the
head of K, one separating space, then M, with nothing else added. -/
theorem c2_unscoped_render_is_head_space_message
    (k : Hand.MarkKind) (msg : String) :
    Hand.mark k msg = Hand.markHead k ++ " " ++ msg := rfl

/-- C3 counterexample: the claim puts the dim SGR on the label only, with
plain brackets around it; the code dims the brackets together with the
label, so at scope "s" and message "m" the scoped info render differs from
the claimed composition. -/
theorem c3_dim_not_on_label_alone :
    Hand.scopemark Hand.MarkKind.info "s" "m" ≠
      "[" ++ Hand.dim "s" ++ "] " ++ Hand.mark Hand.MarkKind.info "m" := by
  decide

/-- C3 (amended): for every scope label S and message M, the scoped render
equals dim applied to the bracketed label as a whole — brackets included —
then one space, then the unscoped render K(M), which is not altered. -/
theorem c3_scoped_render_dims_bracketed_label
    (k : Hand.MarkKind) (s m : String) :
    Hand.scopemark k s m = Hand.dim ("[" ++ s ++ "]") ++ " " ++ Hand.mark k m := by
  simp only [Hand.scopemark, Hand.scopecustom, Hand.dim, Hand.mark, Hand.custom,
    esc_open_split, esc_close_split, string_append_assoc]

/-- C4: for every scope label and message, the scoped render begins with the
byte-exact bracket block ESC[2m `[` label `]` ESC[0m — the dim SGR wrapping
brackets and label together — followed by a single space, then the mark
head, a space, and the message. -/
theorem c4_scope_bracket_byte_format (k : Hand.MarkKind) (s m : String) :
    Hand.scopemark k s m =
      Hand.dim ("[" ++ s ++ "]") ++ " " ++ Hand.markHead k ++ " " ++ m := by
  simp only [Hand.scopemark, Hand.scopecustom, Hand.dim,
    esc_open_split, esc_close_split, string_append_assoc]

/-- C5: every newline variant renders exactly the corresponding no-newline
variant's text plus one trailing newline — for the generic heads, the
per-kind entry points, and the Live emission variants alike; each newline
variant is defined by delegating to its no-newline renderer. -/
theorem c5_newline_variants_append_one_newline
    (head scope msg : String) (k : Hand.MarkKind) (stream : List String) :
    Hand.customln head msg = Hand.custom head msg ++ "\n" ∧
    Hand.scopecustomln scope head msg =
      Hand.scopecustom scope head msg ++ "\n" ∧
    Hand.markln k msg = Hand.mark k msg ++ "\n" ∧
    Hand.scopemarkln k scope msg = Hand.scopemark k scope msg ++ "\n" ∧
    Hand.customlnLive stream head msg =
      stream ++ [Hand.custom head msg ++ "\n"] ∧
    Hand.scopecustomlnLive stream scope head msg =
      stream ++ [Hand.scopecustom scope head msg ++ "\n"] := by
  refine ⟨?_, ?_, ?_, ?_, ?_, ?_⟩ <;>
    simp only [Hand.customln, Hand.custom, Hand.scopecustomln, Hand.scopecustom,
      Hand.markln, Hand.mark, Hand.scopemarkln, Hand.scopemark,
      Hand.customlnLive, Hand.customLive, Hand.scopecustomlnLive,
      Hand.scopecustomLive, Hand.eprintWrite, string_append_assoc]

/-- C6: the Live variant of every renderer writes to the diagnostic stream
exactly the text the Captured variant returns for the same inputs: the two
build-time variants differ only in destination. -/
theorem c6_live_and_captured_byte_identical
    (stream : List String) (scope head msg : String) :
    Hand.customLive stream head msg = stream ++ [Hand.custom head msg] ∧
    Hand.scopecustomLive stream scope head msg =
      stream ++ [Hand.scopecustom scope head msg] ∧
    Hand.customlnLive stream head msg = stream ++ [Hand.customln head msg] ∧
    Hand.scopecustomlnLive stream scope head msg =
      stream ++ [Hand.scopecustomln scope head msg] :=
  ⟨rfl, rfl, rfl, rfl⟩

/-- C7: whenever the number of placeholders in the template differs from the
number of supplied arguments, composition is rejected — the formatting
machinery returns no rendered line at all, so no degraded line is ever
produced. -/
theorem c7_arity_mismatch_fails_to_compose
    (segs : List Hand.Seg) (args : List String)
    (h : Hand.holeCount segs ≠ args.length) :
    Hand.formatArgs segs args = none := by
  simp [Hand.formatArgs, h]

/-- C7 witness: the template "two: ", hole, " ", hole with the single
argument "1" has an arity mismatch, and its composition is rejected. -/
theorem c7_arity_mismatch_witness :
    Hand.holeCount
        [Hand.Seg.lit "two: ", Hand.Seg.hole, Hand.Seg.lit " ", Hand.Seg.hole] ≠
      (["1"] : List String).length ∧
    Hand.formatArgs
        [Hand.Seg.lit "two: ", Hand.Seg.hole, Hand.Seg.lit " ", Hand.Seg.hole]
        ["1"] = none :=
  ⟨by decide,
   c7_arity_mismatch_fails_to_compose
     [Hand.Seg.lit "two: ", Hand.Seg.hole, Hand.Seg.lit " ", Hand.Seg.hole]
     ["1"] (by decide)⟩

/-- C8: passing one scoped render as the message of another nests the
bracketed prefixes textually in order — the outer dim-bracketed label, the
outer head, then the entire inner scoped render unchanged; nothing is
merged, deduplicated, or stripped, even when the two labels coincide. -/
theorem c8_nested_scopes_nest_textually (k : Hand.MarkKind) (s₁ s₂ m : String) :
    Hand.scopemark k s₁ (Hand.scopemark k s₂ m) =
      Hand.dim ("[" ++ s₁ ++ "]") ++ " " ++ Hand.markHead k ++ " " ++
        (Hand.dim ("[" ++ s₂ ++ "]") ++ " " ++ Hand.markHead k ++ " " ++ m) := by
  simp only [Hand.scopemark, Hand.scopecustom, Hand.dim,
    esc_open_split, esc_close_split, string_append_assoc]

/-- C9: rendering is deterministic and its only effect is the single write of
the Live sink — for every mark, scope choice, newline choice, message, and
stream state, the Live surface appends exactly one write whose text is the
pure render of those inputs, and repeating the call with the same inputs
appends a byte-identical second write. -/
theorem c9_deterministic_single_write (k : Hand.MarkKind)
    (scope : Option String) (nl : Bool) (msg : String) (stream : List String) :
    Hand.renderLive stream k scope nl msg =
      stream ++ [Hand.render k scope nl msg] ∧
    Hand.renderLive (Hand.renderLive stream k scope nl msg) k scope nl msg =
      stream ++ [Hand.render k scope nl msg, Hand.render k scope nl msg] := by
  have h : ∀ st : List String,
      Hand.renderLive st k scope nl msg = st ++ [Hand.render k scope nl msg] :=
    fun st => by cases scope <;> cases nl <;> rfl
  refine ⟨h stream, ?_⟩
  rw [h, h, List.append_assoc]
  rfl

/-- C10: the superseded revision's newline renderer and the current
revision's newline renderer emit identical text for every head and message,
namely the head, a space, the message, and one newline. -/
theorem c10_revisions_agree_on_customln (head msg : String) :
    PrintRev.customln head msg = Hand.customln head msg ∧
    PrintRev.customln head msg = head ++ " " ++ msg ++ "\n" := by
  constructor
  · simp only [PrintRev.customln, Hand.customln, Hand.custom,
      string_append_assoc]
  · rfl
